import Mathlib

/-!
Verification of the contact-directory core: the contact store, the
mutation/revalidation protocol, the optimistic favorite display, and the
search controller with its history policy.  Route handlers (`action` and
`loader` functions of `app/root.tsx`, `app/routes/contacts.$contactId_.edit.tsx`
and `app/routes/contacts.$contactId.destroy.tsx`) are embedded directly from
the source; the contact store (`app/data.ts`) and the request lifecycle of the
hosting framework are modelled from the specification, as noted on each
definition.
-/

namespace ContactsApp

/-- The Contact record: `id` and `createdAt` are set at creation, the text
fields default to the empty string, `favorite` to `false`. -/
structure ContactRecord where
  id : String
  createdAt : Nat
  first : String
  last : String
  twitter : String
  avatar : String
  notes : String
  favorite : Bool
deriving Repr, DecidableEq

/-- The authoritative store: contacts in insertion order. -/
abbrev Store := List ContactRecord

/-- The error taxonomy of §7: a missing required identifier, a missing target
id, and an underlying persistence failure. -/
inductive AppError where
  | validationError (msg : String) : AppError
  | notFoundError : AppError
  | storeError : AppError
deriving Repr, DecidableEq

/-- Does `needle` occur at the head of `hay`? -/
def startsWithChars : List Char → List Char → Bool
  | [], _ => true
  | _ :: _, [] => false
  | a :: as, b :: bs => a == b && startsWithChars as bs

/-- Does `needle` occur contiguously anywhere in `hay`? -/
def containsChars (needle : List Char) : List Char → Bool
  | [] => needle.isEmpty
  | b :: bs => startsWithChars needle (b :: bs) || containsChars needle bs

/-- The characters of `s`, lower-cased character by character. -/
def lowerStr (s : String) : List Char := s.data.map Char.toLower

/-- `pat` occurs in `hay` up to case (executable form). -/
def strContainsCI (hay pat : String) : Bool :=
  containsChars (lowerStr pat) (lowerStr hay)

/-- `pat` occurs in `hay` up to case (specification form): some lower-cased
decomposition of `hay` surrounds the lower-cased `pat`. -/
def IsCISubstring (pat hay : String) : Prop :=
  ∃ pre post, lowerStr hay = pre ++ lowerStr pat ++ post

/-- Modelled from the spec: `app/data.ts` is not among the sources; §4.1 —
a contact matches a query when the query is null/absent (or blank, which the
callers treat the same as absent) or is a case-insensitive substring of
`first` or `last`. -/
def matchesQuery (q : Option String) (c : ContactRecord) : Bool :=
  match q with
  | none => true
  | some s => if s = "" then true else strContainsCI c.first s || strContainsCI c.last s

/-- Modelled from the spec: `app/data.ts` is not among the sources; §4.1
`list(query)` — all contacts for a null query, otherwise the matching
contacts, in insertion order. -/
def getContacts (store : Store) (q : Option String) : List ContactRecord :=
  store.filter (matchesQuery q)

/-- Modelled from the spec: `app/data.ts` is not among the sources; §4.1
`get(id)` — the contact with the given id, if present. -/
def getContact (store : Store) (id : String) : Option ContactRecord :=
  store.find? (fun c => c.id = id)

/-- §4.1 `get(id)` in `Except` form: fails `NotFoundError` when absent. -/
def getContactE (store : Store) (id : String) : Except AppError ContactRecord :=
  match getContact store id with
  | none => .error .notFoundError
  | some c => .ok c

/-- A partial update: only the supplied fields change.  `id` and `createdAt`
cannot even be supplied. -/
structure PartialContact where
  first? : Option String := none
  last? : Option String := none
  twitter? : Option String := none
  avatar? : Option String := none
  notes? : Option String := none
  favorite? : Option Bool := none
deriving Repr, DecidableEq

/-- Modelled from the spec: `app/data.ts` is not among the sources; §3 —
`update` performs a field-level merge: each supplied field replaces the old
value, unsupplied fields (and always `id`, `createdAt`) are kept. -/
def applyUpdates (c : ContactRecord) (u : PartialContact) : ContactRecord :=
  { c with
    first := u.first?.getD c.first
    last := u.last?.getD c.last
    twitter := u.twitter?.getD c.twitter
    avatar := u.avatar?.getD c.avatar
    notes := u.notes?.getD c.notes
    favorite := u.favorite?.getD c.favorite }

/-- Modelled from the spec: `app/data.ts` is not among the sources; §4.1
`update(id, partialFields)` — fails `NotFoundError` when the id is absent,
otherwise merges the supplied fields into the stored record and returns the
new store and the updated record. -/
def updateContact (store : Store) (id : String) (u : PartialContact) :
    Except AppError (Store × ContactRecord) :=
  match getContact store id with
  | none => .error .notFoundError
  | some c =>
    let c' := applyUpdates c u
    .ok (store.map (fun x => if x.id = id then c' else x), c')

/-- Modelled from the spec: `app/data.ts` is not among the sources; §4.1
`delete(id)` — fails `NotFoundError` when the id is absent, otherwise removes
the record. -/
def deleteContact (store : Store) (id : String) : Except AppError Store :=
  match getContact store id with
  | none => .error .notFoundError
  | some _ => .ok (store.filter (fun c => ¬ c.id = id))

/-- Modelled from the spec: `app/data.ts` is not among the sources; §4.1
`create()` — a freshly generated empty contact (all text fields blank,
`favorite = false`), appended in insertion order. -/
def emptyContact (id : String) (ts : Nat) : ContactRecord :=
  { id := id, createdAt := ts, first := "", last := "", twitter := "",
    avatar := "", notes := "", favorite := false }

/-- Modelled from the spec: `app/data.ts` is not among the sources; §4.1
`create()` acting on the store. -/
def createEmptyContact (store : Store) (id : String) (ts : Nat) :
    Store × ContactRecord :=
  (store ++ [emptyContact id ts], emptyContact id ts)

/-- Submitted form data: named text fields in document order. -/
abbrev FormData := List (String × String)

/-- `formData.get(name)`: the first value submitted under `name`, if any. -/
def formDataGet (fd : FormData) (name : String) : Option String :=
  (fd.find? (fun p => p.1 = name)).map Prod.snd

/-- From `app/root.tsx`: `formData.get("favorite") === "true"` — the favorite
value a submitted payload encodes: `true` exactly when the field is the
string `"true"`, `false` for any other value or an absent field. -/
def submittedFavorite (fd : FormData) : Bool :=
  formDataGet fd "favorite" = some "true"

/-- From `app/root.tsx` (`contacts.$contactId` action): checks the
`contactId` param (`invariant`), then sets the contact's `favorite` to
whether the submitted `favorite` field is exactly the string `"true"`.
Returns the action's result together with the store afterwards. -/
def favoriteAction (store : Store) (contactId : Option String) (fd : FormData) :
    Except AppError ContactRecord × Store :=
  match contactId with
  | none => (.error (.validationError "Missing contactId param"), store)
  | some cid =>
    match updateContact store cid { favorite? := some (submittedFavorite fd) } with
    | .error e => (.error e, store)
    | .ok (store', c') => (.ok c', store')

/-- From `app/routes/contacts.$contactId_.edit.tsx` (action): the partial
update collected from the edit form's fields (`Object.fromEntries(formData)`
over the form's five text inputs). -/
def updatesFromForm (fd : FormData) : PartialContact :=
  { first? := formDataGet fd "first"
    last? := formDataGet fd "last"
    twitter? := formDataGet fd "twitter"
    avatar? := formDataGet fd "avatar"
    notes? := formDataGet fd "notes" }

/-- From `app/routes/contacts.$contactId_.edit.tsx` (action): checks the
`contactId` param (`invariant`), updates the contact with the submitted
fields, and redirects to `/contacts/<id>`. -/
def editAction (store : Store) (contactId : Option String) (fd : FormData) :
    Except AppError String × Store :=
  match contactId with
  | none => (.error (.validationError "Missing contactId param"), store)
  | some cid =>
    match updateContact store cid (updatesFromForm fd) with
    | .error e => (.error e, store)
    | .ok (store', _) => (.ok ("/contacts/" ++ cid), store')

/-- From `app/routes/contacts.$contactId.destroy.tsx` (action): checks the
`contactId` param (`invariant`), deletes the contact and redirects to `/`. -/
def destroyAction (store : Store) (contactId : Option String) :
    Except AppError String × Store :=
  match contactId with
  | none => (.error (.validationError "Missing contactId param"), store)
  | some cid =>
    match deleteContact store cid with
    | .error e => (.error e, store)
    | .ok store' => (.ok "/", store')

/-- From `app/root.tsx` (`contacts.$contactId` loader, identical in the edit
route): checks the `contactId` param, fetches the contact, and surfaces a
recoverable not-found condition (the thrown 404 `Response`) when absent. -/
def contactLoader (store : Store) (contactId : Option String) :
    Except AppError ContactRecord :=
  match contactId with
  | none => .error (.validationError "Missing contactId param")
  | some cid =>
    match getContact store cid with
    | none => .error .notFoundError
    | some c => .ok c

/-- From `app/root.tsx` (root loader): reads `q` from the URL and returns the
matching contacts together with `q`. -/
def rootLoader (store : Store) (q : Option String) :
    List ContactRecord × Option String :=
  (getContacts store q, q)

/-- The request-state signal of §6: `idle | submitting | loading`. -/
inductive FetcherState where
  | idle
  | submitting
  | loading
deriving Repr, DecidableEq

/-- Modelled from the spec: §6 — while non-idle the in-flight submitted
payload is exposed (`fetcher.formData`); while idle it is absent. -/
def fetcherFormData (st : FetcherState) (payload : FormData) : Option FormData :=
  match st with
  | .idle => none
  | .submitting => some payload
  | .loading => some payload

/-- From `app/root.tsx` (`Favorite` component): the displayed favorite value
is the parsed in-flight payload when one exists, otherwise the authoritative
value from the loader's contact. -/
def favoriteResolver (formData : Option FormData) (contactFavorite : Bool) : Bool :=
  match formData with
  | some fd => submittedFavorite fd
  | none => contactFavorite

/-- The displayed favorite value as a function of the request state. -/
def displayedFavorite (st : FetcherState) (payload : FormData) (authoritative : Bool) : Bool :=
  favoriteResolver (fetcherFormData st payload) authoritative

/-- From `app/root.tsx` (`Favorite` component): the toggle button submits the
negation of the currently displayed value. -/
def favoriteButtonValue (displayed : Bool) : String :=
  if displayed then "false" else "true"

/-- The authoritative favorite value the revalidating read reports for `id`
(false when the contact is gone). -/
def authFavorite (store : Store) (id : String) : Bool :=
  ((getContact store id).map ContactRecord.favorite).getD false

/-- The observable phases of one mutation: Submit, Settle (with its outcome),
Revalidate. -/
inductive MEvent where
  | submitEv : MEvent
  | settleEv (ok : Bool) : MEvent
  | revalidateEv : MEvent
deriving Repr, DecidableEq

/-- Modelled from the spec: §4.2 MutationCoordinator — a mutation is
dispatched, settles against the store (success replaces the store, failure
leaves it unchanged), and the authoritative view is then re-fetched
unconditionally.  Returns the phase trace and the store the revalidating
read sees. -/
def runMutation (store : Store) (mutate : Store → Except AppError Store) :
    List MEvent × Store :=
  let outcome := mutate store
  let storeAfterSettle :=
    match outcome with
    | .ok s' => s'
    | .error _ => store
  ([.submitEv, .settleEv outcome.isOk, .revalidateEv], storeAfterSettle)

/-- Modelled from the spec: §7 — a mutation whose Settle phase fails with a
`StoreError` (the underlying persistence failure). -/
def rejectingMutation : Store → Except AppError Store :=
  fun _ => .error .storeError

/-- An abstract push/replace navigation history: the stack of entries, the
last one current. -/
structure History where
  entries : List String
deriving Repr, DecidableEq

/-- `push(url)`: a new entry. -/
def History.push (h : History) (url : String) : History :=
  ⟨h.entries ++ [url]⟩

/-- `replace(url)`: the current entry is replaced. -/
def History.replace (h : History) (url : String) : History :=
  ⟨h.entries.dropLast ++ [url]⟩

/-- The URL a search submission navigates to. -/
def searchUrl (text : String) : String := "/?q=" ++ text

/-- From `app/root.tsx` (search `Form` `onChange`): `isFirstSearch` is
whether the current `q` param is null; the submission replaces the current
history entry unless it is the first search, which pushes. -/
def searchSubmit (q : Option String) (h : History) (text : String) : History :=
  let isFirstSearch := q = none
  if ¬ isFirstSearch then h.replace (searchUrl text) else h.push (searchUrl text)

/-- A search session: the current `q` param and the history. -/
structure SearchSession where
  q : Option String
  hist : History
deriving Repr, DecidableEq

/-- Modelled from the spec: §4.4 — after a submission the GET navigation
makes the submitted text the current `q` param. -/
def sessionSubmit (s : SearchSession) (text : String) : SearchSession :=
  { q := some text, hist := searchSubmit s.q s.hist text }

/-- Modelled from the spec: §4.4 supersession — search requests are numbered
by issue order; only the most recently issued request's resolution may update
the visible list. -/
structure SearchCtl where
  nextId : Nat
  latest : Option Nat
  displayed : Option (List ContactRecord)
deriving Repr, DecidableEq

/-- Issue a new search request: it becomes the latest. -/
def SearchCtl.issue (s : SearchCtl) : SearchCtl × Nat :=
  ({ nextId := s.nextId + 1, latest := some s.nextId, displayed := s.displayed },
   s.nextId)

/-- A request resolves: its result is displayed only if it is still the
latest issued request; a superseded result is discarded. -/
def SearchCtl.resolve (s : SearchCtl) (req : Nat) (result : List ContactRecord) :
    SearchCtl :=
  if s.latest = some req then { s with displayed := some result } else s

/-- The search-box UI state: the uncontrolled input text and the `q` param. -/
structure AppUi where
  inputText : String
  qParam : Option String
deriving Repr, DecidableEq

/-- From `app/root.tsx` (`useEffect` on `[q]`): the input's value is set to
`q || ""`. -/
def resyncSearchInput (ui : AppUi) : AppUi :=
  { ui with inputText := ui.qParam.getD "" }

/-- An external navigation (back/forward) changes the `q` param, after which
the resync effect from `app/root.tsx` fires. -/
def externalNavigate (ui : AppUi) (newQ : Option String) : AppUi :=
  resyncSearchInput { ui with qParam := newQ }

/-- A sample contact used as concrete witness data. -/
def alice : ContactRecord :=
  { id := "alice", createdAt := 0, first := "Alice", last := "Anders",
    twitter := "", avatar := "", notes := "", favorite := false }

/-- A sample one-contact store. -/
def sampleStore : Store := [alice]

/-- The payload a favorite toggle submits when the displayed value is false. -/
def togglePayload : FormData := [("favorite", "true")]

/-! ### Helper lemmas -/

theorem startsWithChars_iff (n h : List Char) :
    startsWithChars n h = true ↔ ∃ rest, h = n ++ rest := by
  induction n generalizing h with
  | nil => simp [startsWithChars]
  | cons a as ih =>
    cases h with
    | nil =>
      simp [startsWithChars]
    | cons b bs =>
      simp only [startsWithChars, Bool.and_eq_true, beq_iff_eq, ih, List.cons_append,
        List.cons.injEq]
      constructor
      · rintro ⟨rfl, rest, rfl⟩
        exact ⟨rest, rfl, rfl⟩
      · rintro ⟨rest, rfl, rfl⟩
        exact ⟨rfl, rest, rfl⟩

theorem containsChars_iff (n h : List Char) :
    containsChars n h = true ↔ ∃ pre post, h = pre ++ n ++ post := by
  induction h with
  | nil =>
    simp only [containsChars, List.isEmpty_iff]
    constructor
    · rintro rfl
      exact ⟨[], [], rfl⟩
    · rintro ⟨pre, post, hp⟩
      rcases List.append_eq_nil.mp hp.symm with ⟨h1, h2⟩
      exact (List.append_eq_nil.mp h1).2
  | cons b bs ih =>
    simp only [containsChars, Bool.or_eq_true, startsWithChars_iff, ih]
    constructor
    · rintro (⟨rest, hr⟩ | ⟨pre, post, rfl⟩)
      · exact ⟨[], rest, by simpa using hr⟩
      · exact ⟨b :: pre, post, rfl⟩
    · rintro ⟨pre, post, hp⟩
      cases pre with
      | nil =>
        exact Or.inl ⟨post, by simpa using hp⟩
      | cons p ps =>
        simp only [List.cons_append, List.cons.injEq] at hp
        exact Or.inr ⟨ps, post, hp.2⟩

theorem strContainsCI_iff (hay pat : String) :
    strContainsCI hay pat = true ↔ IsCISubstring pat hay :=
  containsChars_iff (lowerStr pat) (lowerStr hay)

theorem matchesQuery_some_iff (s : String) (hs : s ≠ "") (c : ContactRecord) :
    matchesQuery (some s) c = true ↔
      IsCISubstring s c.first ∨ IsCISubstring s c.last := by
  rw [matchesQuery, if_neg hs]
  simp [strContainsCI_iff]

theorem getContact_id (store : Store) (id : String) (c : ContactRecord)
    (h : getContact store id = some c) : c.id = id := by
  have := List.find?_some h
  simpa using this

theorem getContact_eq_none_iff (store : Store) (id : String) :
    getContact store id = none ↔ ∀ c ∈ store, c.id ≠ id := by
  simp [getContact, List.find?_eq_none]

theorem getContact_map_update (store : Store) (id : String) (c' : ContactRecord)
    (hid : c'.id = id) (h : getContact store id ≠ none) :
    getContact (store.map (fun x => if x.id = id then c' else x)) id = some c' := by
  induction store with
  | nil => simp [getContact] at h
  | cons a tl ih =>
    by_cases ha : a.id = id
    · simp [getContact, List.map, if_pos ha, List.find?_cons_of_pos, hid]
    · have h' : getContact tl id ≠ none := by
        simpa [getContact, List.find?_cons_of_neg, ha] using h
      simpa [getContact, List.map, if_neg ha, List.find?_cons_of_neg, ha] using ih h'

theorem getContact_map_update_frame (store : Store) (id j : String)
    (c' : ContactRecord) (hid : c'.id = id) (hne : j ≠ id) :
    getContact (store.map (fun x => if x.id = id then c' else x)) j =
      getContact store j := by
  induction store with
  | nil => rfl
  | cons a tl ih =>
    by_cases ha : a.id = id
    · have h1 : ¬ c'.id = j := fun hh => hne (hh ▸ hid.symm ▸ rfl)
      have h2 : ¬ a.id = j := fun hh => hne (hh ▸ ha.symm ▸ rfl)
      simp only [getContact, List.map, if_pos ha] at *
      rw [List.find?_cons_of_neg _ (by simpa using h1),
        List.find?_cons_of_neg _ (by simpa using h2)]
      exact ih
    · by_cases haj : a.id = j
      · simp only [getContact, List.map, if_neg ha] at *
        rw [List.find?_cons_of_pos _ (by simpa using haj),
          List.find?_cons_of_pos _ (by simpa using haj)]
      · simp only [getContact, List.map, if_neg ha] at *
        rw [List.find?_cons_of_neg _ (by simpa using haj),
          List.find?_cons_of_neg _ (by simpa using haj)]
        exact ih

theorem getContact_filter_ne (store : Store) (id : String) :
    getContact (store.filter (fun c => ¬ c.id = id)) id = none := by
  rw [getContact, List.find?_eq_none]
  intro x hx
  have hmem := List.mem_filter.mp hx
  simpa using hmem.2

theorem getContacts_none (store : Store) : getContacts store none = store := by
  rw [getContacts]
  apply List.filter_eq_self.mpr
  intro a _
  rfl

/-! ### Claim theorems -/

/-- C2: for a field under mutation the displayed value is the in-flight
payload's value whenever the request state is `submitting` or `loading` and
the authoritative value whenever it is `idle`; with authoritative
`favorite = false` and payload `{favorite: "true"}` the displayed value is
`true` through `submitting` and `loading`, and after revalidation completes
(back to `idle`) it is the new authoritative value: `true` when the mutation
succeeded, `false` when it was rejected. -/
theorem optimistic_favorite_display :
    (∀ payload auth,
      displayedFavorite .submitting payload auth = submittedFavorite payload ∧
      displayedFavorite .loading payload auth = submittedFavorite payload ∧
      displayedFavorite .idle payload auth = auth) ∧
    displayedFavorite .submitting togglePayload false = true ∧
    displayedFavorite .loading togglePayload false = true ∧
    displayedFavorite .idle togglePayload
      (authFavorite (favoriteAction sampleStore (some "alice") togglePayload).2 "alice") = true ∧
    displayedFavorite .idle togglePayload
      (authFavorite (runMutation sampleStore rejectingMutation).2 "alice") = false :=
  ⟨fun _ _ => ⟨rfl, rfl, rfl⟩, rfl, rfl, by decide, by decide⟩

/-- C3: a search submission while the current query parameter is null pushes
a new history entry; a submission while a query parameter is active replaces
the current entry; so submitting query "a" then query "ab" in one session
adds exactly one entry, the second submission replacing it. -/
theorem search_history_push_then_replace (h : History) (text : String) :
    ((searchSubmit none h text).entries = h.entries ++ [searchUrl text]) ∧
    (∀ qcur, (searchSubmit (some qcur) h text).entries =
      h.entries.dropLast ++ [searchUrl text]) ∧
    (∀ t2, (sessionSubmit (sessionSubmit ⟨none, h⟩ text) t2).hist.entries =
        h.entries ++ [searchUrl t2] ∧
      (sessionSubmit (sessionSubmit ⟨none, h⟩ text) t2).q = some t2) := by
  refine ⟨by simp [searchSubmit, History.push], fun qcur => by
    simp [searchSubmit, History.replace], fun t2 => ⟨?_, rfl⟩⟩
  simp [sessionSubmit, searchSubmit, History.push, History.replace]

/-- C4: `list` with a null query returns all contacts in insertion order; any
`list` result is a sublist of the store (stable insertion order); for a
non-empty query `s`, a contact is listed iff it is in the store and `s` is a
case-insensitive substring of its `first` or `last` name. -/
theorem list_query_semantics (store : Store) :
    (getContacts store none = store) ∧
    (∀ q, (getContacts store q).Sublist store) ∧
    (∀ s, s ≠ "" → ∀ c,
      c ∈ getContacts store (some s) ↔
        c ∈ store ∧ (IsCISubstring s c.first ∨ IsCISubstring s c.last)) := by
  refine ⟨getContacts_none store, fun q => List.filter_sublist _, fun s hs c => ?_⟩
  rw [getContacts, List.mem_filter, matchesQuery_some_iff s hs c]

/-- C4 witness: the non-empty query "li" matches the sample contact through a
case-insensitive substring of her first name. -/
theorem list_query_semantics_witness :
    ("li" : String) ≠ "" ∧
    (alice ∈ getContacts sampleStore (some "li") ↔
      alice ∈ sampleStore ∧
        (IsCISubstring "li" alice.first ∨ IsCISubstring "li" alice.last)) :=
  ⟨by decide, (list_query_semantics sampleStore).2.2 "li" (by decide) alice⟩

/-- C7: each contact-targeting handler (favorite toggle, edit save, destroy,
and the contact loader) fails with a `ValidationError` when the required
`contactId` is missing, and the store is left unchanged — the request aborts
before any store operation. -/
theorem missing_id_validation_aborts (store : Store) (fd : FormData) :
    favoriteAction store none fd =
      (.error (.validationError "Missing contactId param"), store) ∧
    editAction store none fd =
      (.error (.validationError "Missing contactId param"), store) ∧
    destroyAction store none =
      (.error (.validationError "Missing contactId param"), store) ∧
    contactLoader store none = .error (.validationError "Missing contactId param") :=
  ⟨rfl, rfl, rfl, rfl⟩

/-- C8: issuing search x then search y and letting x resolve after y leaves
y's result displayed, never x's; moreover x's late resolution (being
superseded) does not even change the displayed list when it arrives first. -/
theorem search_supersession (s0 : SearchCtl) (rx ry : List ContactRecord) :
    ((((s0.issue.1).issue.1).resolve ((s0.issue.1).issue.2) ry).resolve
        (s0.issue.2) rx).displayed = some ry ∧
    (((s0.issue.1).issue.1).resolve (s0.issue.2) rx).displayed = s0.displayed := by
  constructor
  · simp [SearchCtl.issue, SearchCtl.resolve]
  · simp [SearchCtl.issue, SearchCtl.resolve]

/-- C9: when the query parameter changes through external navigation, the
resync effect sets the displayed input text to the new parameter value — the
empty string when it is absent — regardless of what the stale input held. -/
theorem search_input_resync (ui : AppUi) (newQ : Option String) :
    ((externalNavigate ui newQ).inputText = newQ.getD "") ∧
    ((externalNavigate ui none).inputText = "") ∧
    ((externalNavigate ui newQ).qParam = newQ) ∧
    (∀ s, (resyncSearchInput { ui with qParam := s }).inputText = s.getD "") :=
  ⟨rfl, rfl, rfl, fun _ => rfl⟩

/-- C1: every mutation runs Submit, Settle, Revalidate in strict order; the
trace is the same whether Settle succeeded or failed, wherever Revalidate
occurs Settle already occurred before it, and on failure the revalidating
re-fetch sees the pre-mutation store unchanged. -/
theorem revalidate_unconditional_after_settle
    (store : Store) (mutate : Store → Except AppError Store) :
    ((runMutation store mutate).1 =
      [MEvent.submitEv, MEvent.settleEv (mutate store).isOk, MEvent.revalidateEv]) ∧
    (MEvent.revalidateEv ∈ (runMutation store mutate).1) ∧
    (∀ pre post,
      (runMutation store mutate).1 = pre ++ MEvent.revalidateEv :: post →
      MEvent.settleEv (mutate store).isOk ∈ pre) ∧
    (∀ e, mutate store = .error e →
      (runMutation store mutate).2 = store ∧
      getContacts (runMutation store mutate).2 none = getContacts store none) := by
  refine ⟨rfl, by simp [runMutation], ?_, ?_⟩
  · intro pre post hp
    simp only [runMutation] at hp
    rcases pre with _ | ⟨a, _ | ⟨b, _ | ⟨c, rest⟩⟩⟩ <;> simp_all
  · intro e he
    refine ⟨by simp [runMutation, he], by simp [runMutation, he]⟩

/-- C1 witness: a rejected mutation (a `StoreError` during Settle) on the
sample store still has Settle before Revalidate in its trace, and its
revalidating read sees the unchanged store. -/
theorem revalidate_unconditional_after_settle_witness :
    MEvent.settleEv false ∈ [MEvent.submitEv, MEvent.settleEv false] ∧
    (runMutation sampleStore rejectingMutation).2 = sampleStore :=
  ⟨(revalidate_unconditional_after_settle sampleStore rejectingMutation).2.2.1
      [MEvent.submitEv, MEvent.settleEv false] [] rfl,
   ((revalidate_unconditional_after_settle sampleStore rejectingMutation).2.2.2
      AppError.storeError rfl).1⟩

/-- C5: updating an existing contact merges field by field: the result keeps
`id` and `createdAt`, keeps every unsupplied field, takes every supplied
field's value, is what `get` returns afterwards, and no other id's record is
touched. -/
theorem update_field_merge (store : Store) (id : String) (u : PartialContact)
    (c : ContactRecord) (hc : getContact store id = some c) :
    ∃ store' c', updateContact store id u = .ok (store', c') ∧
      c'.id = c.id ∧ c'.createdAt = c.createdAt ∧
      (u.first? = none → c'.first = c.first) ∧
      (u.last? = none → c'.last = c.last) ∧
      (u.twitter? = none → c'.twitter = c.twitter) ∧
      (u.avatar? = none → c'.avatar = c.avatar) ∧
      (u.notes? = none → c'.notes = c.notes) ∧
      (u.favorite? = none → c'.favorite = c.favorite) ∧
      (∀ v, u.first? = some v → c'.first = v) ∧
      (∀ v, u.last? = some v → c'.last = v) ∧
      (∀ v, u.twitter? = some v → c'.twitter = v) ∧
      (∀ v, u.avatar? = some v → c'.avatar = v) ∧
      (∀ v, u.notes? = some v → c'.notes = v) ∧
      (∀ b, u.favorite? = some b → c'.favorite = b) ∧
      getContact store' id = some c' ∧
      (∀ j, j ≠ id → getContact store' j = getContact store j) := by
  have hid : (applyUpdates c u).id = id := getContact_id store id c hc
  refine ⟨store.map (fun x => if x.id = id then applyUpdates c u else x),
    applyUpdates c u, ?_, rfl, rfl,
    fun h => by simp [applyUpdates, h], fun h => by simp [applyUpdates, h],
    fun h => by simp [applyUpdates, h], fun h => by simp [applyUpdates, h],
    fun h => by simp [applyUpdates, h], fun h => by simp [applyUpdates, h],
    fun v h => by simp [applyUpdates, h], fun v h => by simp [applyUpdates, h],
    fun v h => by simp [applyUpdates, h], fun v h => by simp [applyUpdates, h],
    fun v h => by simp [applyUpdates, h], fun b h => by simp [applyUpdates, h],
    ?_, ?_⟩
  · simp only [updateContact, hc]
  · exact getContact_map_update store id (applyUpdates c u) hid (by rw [hc]; simp)
  · intro j hj
    exact getContact_map_update_frame store id j (applyUpdates c u) hid hj

/-- C5 witness: on the sample store, `update("alice", {favorite: true})`
merges: the result has `favorite = true` and every other field as before. -/
theorem update_field_merge_witness :
    getContact sampleStore "alice" = some alice ∧
    (∃ store' c',
      updateContact sampleStore "alice" { favorite? := some true } = .ok (store', c') ∧
      c'.id = alice.id ∧ c'.createdAt = alice.createdAt ∧
      (({ favorite? := some true } : PartialContact).first? = none → c'.first = alice.first) ∧
      (({ favorite? := some true } : PartialContact).last? = none → c'.last = alice.last) ∧
      (({ favorite? := some true } : PartialContact).twitter? = none → c'.twitter = alice.twitter) ∧
      (({ favorite? := some true } : PartialContact).avatar? = none → c'.avatar = alice.avatar) ∧
      (({ favorite? := some true } : PartialContact).notes? = none → c'.notes = alice.notes) ∧
      (({ favorite? := some true } : PartialContact).favorite? = none → c'.favorite = alice.favorite) ∧
      (∀ v, ({ favorite? := some true } : PartialContact).first? = some v → c'.first = v) ∧
      (∀ v, ({ favorite? := some true } : PartialContact).last? = some v → c'.last = v) ∧
      (∀ v, ({ favorite? := some true } : PartialContact).twitter? = some v → c'.twitter = v) ∧
      (∀ v, ({ favorite? := some true } : PartialContact).avatar? = some v → c'.avatar = v) ∧
      (∀ v, ({ favorite? := some true } : PartialContact).notes? = some v → c'.notes = v) ∧
      (∀ b, ({ favorite? := some true } : PartialContact).favorite? = some b → c'.favorite = b) ∧
      getContact store' "alice" = some c' ∧
      (∀ j, j ≠ "alice" → getContact store' j = getContact sampleStore j)) :=
  ⟨rfl, update_field_merge sampleStore "alice" { favorite? := some true } alice rfl⟩

/-- C6: an absent id makes `get`, `update`, `delete` and the contact loader
fail with `NotFoundError` — a value-level error the mutation/revalidation
pipeline still revalidates through — and after a successful delete the id is
gone from `get` and from `list(null)`. -/
theorem notfound_error_semantics (store : Store) (id : String) :
    (getContact store id = none ↔ ∀ c ∈ store, c.id ≠ id) ∧
    (getContact store id = none →
      getContactE store id = .error .notFoundError ∧
      (∀ u, updateContact store id u = .error .notFoundError) ∧
      deleteContact store id = .error .notFoundError ∧
      contactLoader store (some id) = .error .notFoundError ∧
      (runMutation store (fun s => deleteContact s id)).2 = store ∧
      MEvent.revalidateEv ∈ (runMutation store (fun s => deleteContact s id)).1) ∧
    (∀ store', deleteContact store id = .ok store' →
      getContact store' id = none ∧
      getContactE store' id = .error .notFoundError ∧
      ∀ c ∈ getContacts store' none, c.id ≠ id) := by
  refine ⟨getContact_eq_none_iff store id, fun h => ?_, fun store' h => ?_⟩
  · refine ⟨by simp only [getContactE, h], fun u => by simp only [updateContact, h],
      by simp only [deleteContact, h], by simp only [contactLoader, getContact] at h ⊢; simp [h],
      by simp [runMutation, deleteContact, h], by simp [runMutation]⟩
  · cases hg : getContact store id with
    | none =>
      simp only [deleteContact, hg] at h
      exact absurd h (by simp)
    | some c0 =>
      simp only [deleteContact, hg, Except.ok.injEq] at h
      subst h
      refine ⟨getContact_filter_ne store id, ?_, ?_⟩
      · simp only [getContactE, getContact_filter_ne store id]
      · intro c hcmem
        rw [getContacts_none] at hcmem
        simpa using (List.mem_filter.mp hcmem).2

/-- C6 witness: on the sample store, `get("bob")` fails `NotFoundError`, and
after deleting "alice" the id is gone. -/
theorem notfound_error_semantics_witness :
    getContactE sampleStore "bob" = Except.error AppError.notFoundError ∧
    getContact ([] : Store) "alice" = none :=
  ⟨((notfound_error_semantics sampleStore "bob").2.1 (by decide)).1,
   ((notfound_error_semantics sampleStore "alice").2.2 [] rfl).1⟩

/-- C10: the favorite action sets `favorite` to `true` iff the submitted
`favorite` field is exactly the string `"true"` — any other value, or an
absent field, yields `false` — and the toggle button always submits the
negation of the currently displayed value. -/
theorem favorite_parse_and_toggle :
    (∀ fd, submittedFavorite fd = true ↔ formDataGet fd "favorite" = some "true") ∧
    (∀ fd, formDataGet fd "favorite" = none → submittedFavorite fd = false) ∧
    (∀ fd v, formDataGet fd "favorite" = some v → v ≠ "true" →
      submittedFavorite fd = false) ∧
    (∀ store cid c fd, getContact store cid = some c →
      ∃ c', (favoriteAction store (some cid) fd).1 = .ok c' ∧
        c'.favorite = submittedFavorite fd) ∧
    (∀ d, favoriteButtonValue d = "true" ↔ d = false) ∧
    (∀ d, submittedFavorite [("favorite", favoriteButtonValue d)] = !d) := by
  refine ⟨fun fd => by simp [submittedFavorite],
    fun fd h => by simp [submittedFavorite, h],
    fun fd v h hv => by simp [submittedFavorite, h, hv],
    ?_,
    fun d => by cases d <;> simp [favoriteButtonValue],
    fun d => by cases d <;> rfl⟩
  intro store cid c fd hc
  refine ⟨applyUpdates c { favorite? := some (submittedFavorite fd) }, ?_, rfl⟩
  simp only [favoriteAction, updateContact, hc]

/-- C10 witness: on the sample store, parsing the payloads `{favorite:
"true"}`, `{}` and `{favorite: "yes"}`, and toggling alice's favorite. -/
theorem favorite_parse_and_toggle_witness :
    submittedFavorite togglePayload = true ∧
    submittedFavorite [] = false ∧
    submittedFavorite [("favorite", "yes")] = false ∧
    (∃ c', (favoriteAction sampleStore (some "alice") togglePayload).1 = .ok c' ∧
      c'.favorite = submittedFavorite togglePayload) :=
  ⟨(favorite_parse_and_toggle.1 togglePayload).mpr rfl,
   favorite_parse_and_toggle.2.1 [] rfl,
   favorite_parse_and_toggle.2.2.1 [("favorite", "yes")] "yes" rfl (by decide),
   favorite_parse_and_toggle.2.2.2.1 sampleStore "alice" alice togglePayload rfl⟩

end ContactsApp
